import Mathlib

/-!
Shallow embedding of the huntress-mcp-server (src/src/index.ts) for
verification of its specification.

The TypeScript class `HuntressServer` holds mutable fields
`lastRequestTime`, `requestCount` (the rate gate), `config`,
`isInitialized` and `axiosInstance` (credential / HTTP-client state).
We split this state into two structures:
  * `RateState`  models `lastRequestTime` and `requestCount`
    (used only by `checkRateLimit`);
  * `ServerState` models `config`, `isInitialized` and the
    `Authorization` header carried by `axiosInstance`
    (used by `initialize` and the tool dispatchers).
JavaScript numbers holding millisecond timestamps are modelled as `Int`;
all timestamps in play are far below 2^53 so JS arithmetic on them is
exact integer arithmetic. Fallible code returns `Except`; an issued
outbound HTTP request appears as explicit data in the result (so
"no network call was made" is visible as the absence of a `request`
constructor).
-/

/-- The rate-gate fields of `HuntressServer`:
`lastRequestTime: number = 0`, `requestCount: number = 0`. -/
structure RateState where
  lastRequestTime : Int
  requestCount : Nat
  deriving Repr, DecidableEq

/-- Model of `checkRateLimit` (index.ts lines 108-120).

```
const now = Date.now();
if (now - this.lastRequestTime >= 60000) {
  this.requestCount = 0;
  this.lastRequestTime = now;
} else if (this.requestCount >= 60) {
  const waitTime = 60000 - (now - this.lastRequestTime);
  await new Promise(resolve => setTimeout(resolve, waitTime));
  this.requestCount = 0;
  this.lastRequestTime = Date.now();
}
this.requestCount++;
```

`now` models the first `Date.now()` reading; `nowAfterWait` models the
second `Date.now()` reading taken after the `setTimeout` suspension (it
is only consulted on the waiting branch). The first component of the
result is `some waitTime` when the caller was suspended for `waitTime`
milliseconds and `none` when the call returned without suspending. -/
def checkRateLimit (now nowAfterWait : Int) (s : RateState) :
    Option Int × RateState :=
  let (waited, s1) :=
    if now - s.lastRequestTime ≥ 60000 then
      (none, { s with requestCount := 0, lastRequestTime := now })
    else if s.requestCount ≥ 60 then
      (some (60000 - (now - s.lastRequestTime)),
        { s with requestCount := 0, lastRequestTime := nowAfterWait })
    else
      (none, s)
  (waited, { s1 with requestCount := s1.requestCount + 1 })

/-- Sequential executions of the rate gate, one per timestamp in `ts`.
Each call reads the clock at its timestamp; since we only ever apply this
to runs in which no call suspends, the post-wait clock reading is passed
the same timestamp (it is never consulted on non-waiting branches).
Returns the list of per-call wait outcomes together with the final
state. -/
def runCalls (ts : List Int) (s : RateState) : List (Option Int) × RateState :=
  match ts with
  | [] => ([], s)
  | t :: rest =>
      let r := checkRateLimit t t s
      let rs := runCalls rest r.2
      (r.1 :: rs.1, rs.2)

/-- Structure `Config` (index.ts lines 18-21): both fields optional strings. -/
structure Config where
  huntressApiKey : Option String := none
  huntressApiSecret : Option String := none
  deriving Repr, DecidableEq

/-- The two environment variables read by `parseConfig`
(`process.env.HUNTRESS_API_KEY`, `process.env.HUNTRESS_API_SECRET`);
`none` models an unset variable. -/
structure Env where
  HUNTRESS_API_KEY : Option String := none
  HUNTRESS_API_SECRET : Option String := none
  deriving Repr, DecidableEq

/-- JavaScript falsiness of an optional string value: `undefined` and the
empty string are falsy, every other string is truthy. -/
def jsStrFalsy : Option String → Bool
  | none => true
  | some s => s = ""

/-- Model of `parseConfig` (index.ts lines 56-77): walk the query-parameter
entries in order, the last `huntressApiKey` / `huntressApiSecret` entry
winning, then fall back to the environment variables when the collected
value is falsy (absent or empty). -/
def parseConfig (queryParams : List (String × String)) (env : Env) : Config :=
  let c1 := queryParams.foldl
    (fun c kv =>
      if kv.1 = "huntressApiKey" then { c with huntressApiKey := some kv.2 }
      else if kv.1 = "huntressApiSecret" then
        { c with huntressApiSecret := some kv.2 }
      else c)
    {}
  let c2 :=
    if jsStrFalsy c1.huntressApiKey then
      { c1 with huntressApiKey := env.HUNTRESS_API_KEY }
    else c1
  if jsStrFalsy c2.huntressApiSecret then
    { c2 with huntressApiSecret := env.HUNTRESS_API_SECRET }
  else c2

/-- Model of `hasCredentials` (index.ts lines 80-82):
`!!(this.config.huntressApiKey && this.config.huntressApiSecret)` —
true exactly when both fields are truthy strings. -/
def hasCredentials (c : Config) : Bool :=
  !jsStrFalsy c.huntressApiKey && !jsStrFalsy c.huntressApiSecret

/-- The base64 alphabet used by `Buffer.toString('base64')`. -/
def base64Alphabet : List Char :=
  "ABCDEFGHIJKLMNOPQRSTUVWXYZabcdefghijklmnopqrstuvwxyz0123456789+/".toList

/-- Character of the base64 alphabet at index `i` (0 ≤ i < 64). -/
def base64Char (i : Nat) : Char := base64Alphabet.getD i 'A'

/-- Standard base64 of a byte list, with `=` padding. -/
def base64EncodeBytes : List Nat → List Char
  | b1 :: b2 :: b3 :: rest =>
      let n := b1 * 65536 + b2 * 256 + b3
      base64Char (n / 262144 % 64) :: base64Char (n / 4096 % 64) ::
        base64Char (n / 64 % 64) :: base64Char (n % 64) ::
        base64EncodeBytes rest
  | [b1, b2] =>
      let n := b1 * 65536 + b2 * 256
      [base64Char (n / 262144 % 64), base64Char (n / 4096 % 64),
        base64Char (n / 64 % 64), '=']
  | [b1] =>
      let n := b1 * 65536
      [base64Char (n / 262144 % 64), base64Char (n / 4096 % 64), '=', '=']
  | [] => []

/-- Models `Buffer.from(s).toString('base64')`. The byte sequence of `s`
is taken as its code points, which coincides with the UTF-8 bytes the
source buffers for the ASCII credential strings in play. -/
def base64Encode (s : String) : String :=
  String.mk (base64EncodeBytes (s.toList.map Char.toNat))

/-- The `Authorization` header value built by `initialize`
(index.ts line 101):
``Basic ${Buffer.from(`${key}:${secret}`).toString('base64')}``.
When a field is `undefined` JS template interpolation would print the
text `undefined`; the header is only ever built after `hasCredentials`
succeeded, so both fields are present and `getD ""` is never taken. -/
def authHeaderFor (c : Config) : String :=
  "Basic " ++ base64Encode
    (c.huntressApiKey.getD "" ++ ":" ++ c.huntressApiSecret.getD "")

/-- Error codes of `McpError` used by the server
(`@modelcontextprotocol/sdk` `ErrorCode`). -/
inductive MErrorCode
  | InvalidRequest
  | InvalidParams
  | MethodNotFound
  | InternalError
  deriving Repr, DecidableEq

/-- An `McpError`: a code together with a message string. -/
structure McpErr where
  code : MErrorCode
  message : String
  deriving Repr, DecidableEq

/-- The error thrown by `initialize` when credentials are missing
(index.ts lines 91-94). -/
def authRequiredErr : McpErr :=
  { code := .InvalidRequest,
    message := "huntressApiKey and huntressApiSecret are required" }

/-- The credential / HTTP-client fields of `HuntressServer`:
`config` (initially `{}`), `isInitialized` (initially `false`) and the
`Authorization` header of `axiosInstance` (initially `null`). -/
structure ServerState where
  config : Config := {}
  isInitialized : Bool := false
  authHeader : Option String := none
  deriving Repr, DecidableEq

/-- Model of `initialize` (index.ts lines 85-106): return immediately when
already initialized; otherwise fail with the credentials-required
`McpError` when `hasCredentials` is false; otherwise create the axios
instance whose `Authorization` header is derived from the current
config, and set `isInitialized`. -/
def initServer (s : ServerState) : Except McpErr ServerState :=
  if s.isInitialized then .ok s
  else if !hasCredentials s.config then .error authRequiredErr
  else .ok { s with
    authHeader := some (authHeaderFor s.config),
    isInitialized := true }

/-- JSON-Schema primitive types appearing in the tool input schemas. -/
inductive SchemaType
  | integer
  | string
  deriving Repr, DecidableEq

/-- One property of a tool's JSON-Schema `properties` object: its name,
type, description and the optional `minimum` / `maximum` / `enum`
constraints the source declares. -/
structure PropSchema where
  name : String
  type : SchemaType
  description : String
  minimum : Option Int := none
  maximum : Option Int := none
  enum : Option (List String) := none
  deriving Repr, DecidableEq

/-- A tool descriptor as declared in the catalogue: name, description
and an object input schema given by its properties and `required`
list. -/
structure ToolDescriptor where
  name : String
  description : String
  properties : List PropSchema
  required : List String := []
  deriving Repr, DecidableEq

/-- Model of the `ListToolsRequestSchema` handler (index.ts lines
146-264): it closes over the server instance but reads none of its
state, returning the literal static catalogue of seven tools. The
`ServerState` argument records that the handler could observe the
state; the body ignores it, as the source does. -/
def listToolsHandler (_s : ServerState) : List ToolDescriptor :=
  [ { name := "get_account_info",
      description := "Get information about the current account",
      properties := [] },
    { name := "list_organizations",
      description := "List organizations in the account",
      properties :=
        [ { name := "page", type := .integer,
            description := "Page number (starts at 1)", minimum := some 1 },
          { name := "limit", type := .integer,
            description := "Number of results per page (1-500)",
            minimum := some 1, maximum := some 500 } ] },
    { name := "get_organization",
      description := "Get details of a specific organization",
      properties :=
        [ { name := "organization_id", type := .integer,
            description := "Organization ID" } ],
      required := ["organization_id"] },
    { name := "list_agents",
      description := "List agents in the account",
      properties :=
        [ { name := "page", type := .integer,
            description := "Page number (starts at 1)", minimum := some 1 },
          { name := "limit", type := .integer,
            description := "Number of results per page (1-500)",
            minimum := some 1, maximum := some 500 } ] },
    { name := "get_agent",
      description := "Get details of a specific agent",
      properties :=
        [ { name := "agent_id", type := .integer,
            description := "Agent ID" } ],
      required := ["agent_id"] },
    { name := "list_incidents",
      description := "List incidents in the account",
      properties :=
        [ { name := "page", type := .integer,
            description := "Page number (starts at 1)", minimum := some 1 },
          { name := "limit", type := .integer,
            description := "Number of results per page (1-500)",
            minimum := some 1, maximum := some 500 },
          { name := "status", type := .string,
            description := "Filter by incident status",
            enum := some ["active", "resolved", "ignored"] } ] },
    { name := "get_incident",
      description := "Get details of a specific incident",
      properties :=
        [ { name := "incident_id", type := .integer,
            description := "Incident ID" } ],
      required := ["incident_id"] } ]

/-- The names of the seven tools dispatched by the `CallToolRequestSchema`
handler's `switch` (index.ts lines 273-400). -/
def sevenToolNames : List String :=
  [ "get_account_info", "list_organizations", "get_organization",
    "list_agents", "get_agent", "list_incidents", "get_incident" ]

/-- The argument object of a tool call (`request.params.arguments`),
projected onto the fields the dispatcher reads. A `none` field models an
absent property (`undefined`); clients honouring the declared schemas
send integers for ids and paging and a string for `status`. -/
structure Args where
  page : Option Int := none
  limit : Option Int := none
  organization_id : Option Int := none
  agent_id : Option Int := none
  incident_id : Option Int := none
  status : Option String := none
  deriving Repr, DecidableEq

/-- JavaScript `v || d` for an optional numeric `v`: `undefined` and `0`
are falsy and yield the default, every other integer is truthy. -/
def jsIntOr (v : Option Int) (d : Int) : Int :=
  match v with
  | none => d
  | some n => if n = 0 then d else n

/-- JavaScript truthiness of an optional numeric value (used by the
`if (!orgId)` style guards): truthy iff present and nonzero. -/
def jsIntTruthy (v : Option Int) : Bool :=
  match v with
  | none => false
  | some n => n ≠ 0

/-- A query-parameter value sent with an outbound GET. -/
inductive ParamVal
  | int (n : Int)
  | str (s : String)
  deriving Repr, DecidableEq

/-- An outbound API request as handed to `makeRequest`: the endpoint
path and the query parameters. -/
structure ApiRequest where
  endpoint : String
  params : List (String × ParamVal) := []
  deriving Repr, DecidableEq

/-- The `page`/`limit` params built by the three list tools
(index.ts lines 287-290, 322-325, 357-360):
`page: args?.page || 1, limit: Math.min(args?.limit || 50, 500)`. -/
def pagingParams (args : Args) : List (String × ParamVal) :=
  [ ("page", .int (jsIntOr args.page 1)),
    ("limit", .int (min (jsIntOr args.limit 50) 500)) ]

/-- Model of the `switch (name)` body of the `CallToolRequestSchema`
handler (index.ts lines 273-400), up to the point where `makeRequest`
is invoked: an `.ok` result is the request that is then issued, an
`.error` result is the `McpError` thrown before any request is made.
The `if (!id)` guards test JS truthiness, so an id of `0` takes the
missing-parameter branch exactly like an absent id. -/
def dispatchTool (name : String) (args : Args) : Except McpErr ApiRequest :=
  match name with
  | "get_account_info" => .ok { endpoint := "/account" }
  | "list_organizations" =>
      .ok { endpoint := "/organizations", params := pagingParams args }
  | "get_organization" =>
      if !jsIntTruthy args.organization_id then
        .error { code := .InvalidParams, message := "organization_id is required" }
      else
        .ok { endpoint := "/organizations/" ++ toString (args.organization_id.getD 0) }
  | "list_agents" =>
      .ok { endpoint := "/agents", params := pagingParams args }
  | "get_agent" =>
      if !jsIntTruthy args.agent_id then
        .error { code := .InvalidParams, message := "agent_id is required" }
      else
        .ok { endpoint := "/agents/" ++ toString (args.agent_id.getD 0) }
  | "list_incidents" =>
      let ps := pagingParams args
      let ps :=
        match args.status with
        | some st => if st ≠ "" then ps ++ [("status", .str st)] else ps
        | none => ps
      .ok { endpoint := "/incidents", params := ps }
  | "get_incident" =>
      if !jsIntTruthy args.incident_id then
        .error { code := .InvalidParams, message := "incident_id is required" }
      else
        .ok { endpoint := "/incidents/" ++ toString (args.incident_id.getD 0) }
  | _ => .error { code := .MethodNotFound, message := "Unknown tool: " ++ name }

/-- Observable outcome of one `CallToolRequestSchema` invocation: either
an `McpError` surfaced to the caller (in which case no outbound request
was made), or an outbound API request issued with the `Authorization`
header of the server's axios instance. -/
inductive CallOutcome
  | err (e : McpErr)
  | request (r : ApiRequest) (auth : Option String)
  deriving Repr, DecidableEq

/-- Model of the `CallToolRequestSchema` handler (index.ts lines
266-410): `await this.initialize()` runs first — before the tool name
is even examined — and its `McpError` propagates unchanged through the
`catch` (which rethrows `McpError` instances); then the `switch`
dispatches, and a successful dispatch issues its request through
`makeRequest` on the axios instance created at initialization. -/
def handleCallTool (s : ServerState) (name : String) (args : Args) :
    CallOutcome × ServerState :=
  match initServer s with
  | .error e => (.err e, s)
  | .ok s1 =>
      match dispatchTool name args with
      | .error e => (.err e, s1)
      | .ok r => (.request r s1.authHeader, s1)

/-- Sequential tool calls through the stdio-mode handler, threading the
server state; in stdio mode `this.config` is never reassigned between
calls, which the threading preserves. -/
def runToolCalls (calls : List (String × Args)) (s : ServerState) :
    List CallOutcome × ServerState :=
  match calls with
  | [] => ([], s)
  | c :: rest =>
      let r := handleCallTool s c.1 c.2
      let rs := runToolCalls rest r.2
      (r.1 :: rs.1, rs.2)

/-- Model of the `switch (name)` body of the HTTP-mode `tools/call`
branch (index.ts lines 717-839), up to the `makeRequest` invocation.
It mirrors the stdio switch except that its guards throw plain
`Error(message)` values, so errors carry only a message string. -/
def dispatchToolHttp (name : String) (args : Args) :
    Except String ApiRequest :=
  match name with
  | "get_account_info" => .ok { endpoint := "/account" }
  | "list_organizations" =>
      .ok { endpoint := "/organizations", params := pagingParams args }
  | "get_organization" =>
      if !jsIntTruthy args.organization_id then
        .error "organization_id is required"
      else
        .ok { endpoint := "/organizations/" ++ toString (args.organization_id.getD 0) }
  | "list_agents" =>
      .ok { endpoint := "/agents", params := pagingParams args }
  | "get_agent" =>
      if !jsIntTruthy args.agent_id then
        .error "agent_id is required"
      else
        .ok { endpoint := "/agents/" ++ toString (args.agent_id.getD 0) }
  | "list_incidents" =>
      let ps := pagingParams args
      let ps :=
        match args.status with
        | some st => if st ≠ "" then ps ++ [("status", .str st)] else ps
        | none => ps
      .ok { endpoint := "/incidents", params := ps }
  | "get_incident" =>
      if !jsIntTruthy args.incident_id then
        .error "incident_id is required"
      else
        .ok { endpoint := "/incidents/" ++ toString (args.incident_id.getD 0) }
  | _ => .error ("Unknown tool: " ++ name)

/-- Observable outcome of a `tools/call` POST in HTTP mode. -/
inductive HttpOutcome
  | initErr (e : McpErr)
  | rpcErr (message : String)
  | request (r : ApiRequest) (auth : Option String)
  deriving Repr, DecidableEq

/-- Model of one HTTP-mode `tools/call` request (index.ts lines 414-431
and 709-863): `handleHttpRequest` first reassigns
`this.config = this.parseConfig(queryParams)` for every incoming
request; the `tools/call` branch then runs `await this.initialize()` —
whose early return when `isInitialized` is already true skips rebuilding
the axios instance — and dispatches, issuing the request with the
`Authorization` header of whatever axios instance is in place. -/
def handleHttpToolCall (queryParams : List (String × String)) (env : Env)
    (name : String) (args : Args) (s : ServerState) :
    HttpOutcome × ServerState :=
  let s1 := { s with config := parseConfig queryParams env }
  match initServer s1 with
  | .error e => (.initErr e, s1)
  | .ok s2 =>
      match dispatchToolHttp name args with
      | .error msg => (.rpcErr msg, s2)
      | .ok r => (.request r s2.authHeader, s2)

/-- C1: on the 61st admit within a single 60-second window — the call
arrives with `requestCount ≥ 60` and `now − windowStart < 60000` — the
gate suspends the caller for exactly `60000 − (now − windowStart)`
milliseconds, then resets `requestCount` to 0 and `windowStart`
(`lastRequestTime`) to the current time read after the wait, and the
trailing increment brings `requestCount` to 1 before returning, so
counting restarts from the new window. -/
theorem checkRateLimit_61st_call_waits_then_resets
    (now nowAfterWait : Int) (s : RateState)
    (hcount : s.requestCount ≥ 60)
    (hwin : now - s.lastRequestTime < 60000) :
    checkRateLimit now nowAfterWait s =
      (some (60000 - (now - s.lastRequestTime)),
        { lastRequestTime := nowAfterWait, requestCount := 1 }) := by
  simp only [checkRateLimit]
  rw [if_neg (by omega), if_pos hcount]

/-- Witness for C1 at a concrete input: window started at time 0 with 60
requests already counted, the 61st call arriving at time 100 and the
post-wait clock reading 60000. -/
theorem checkRateLimit_61st_call_waits_then_resets_witness :
    RateState.requestCount ⟨0, 60⟩ ≥ 60 ∧
    (100 : Int) - RateState.lastRequestTime ⟨0, 60⟩ < 60000 ∧
    checkRateLimit 100 60000 ⟨0, 60⟩ =
      (some (60000 - (100 - RateState.lastRequestTime ⟨0, 60⟩)),
        { lastRequestTime := 60000, requestCount := 1 }) :=
  ⟨by decide, by decide,
    checkRateLimit_61st_call_waits_then_resets 100 60000 ⟨0, 60⟩
      (by decide) (by decide)⟩

/-- Auxiliary invariant for C2: starting from any state whose window
began at `w`, a run of calls all landing strictly inside that window and
short enough that the counter never reaches 60 produces no waits. -/
theorem runCalls_in_window_no_wait (w : Int) :
    ∀ (ts : List Int) (s : RateState),
    s.lastRequestTime = w →
    s.requestCount + ts.length ≤ 60 →
    (∀ t ∈ ts, t - w < 60000) →
    ∀ x ∈ (runCalls ts s).1, x = none := by
  intro ts
  induction ts with
  | nil =>
      intro s _ _ _ x hx
      simp [runCalls] at hx
  | cons t rest ih =>
      intro s hlast hcount hwin x hx
      simp only [List.length_cons] at hcount
      have hw : t - w < 60000 := hwin t (by simp)
      have hstep : checkRateLimit t t s =
          (none, { s with requestCount := s.requestCount + 1 }) := by
        simp only [checkRateLimit]
        rw [if_neg (by omega), if_neg (by omega)]
      simp only [runCalls, hstep, List.mem_cons] at hx
      rcases hx with hx | hx
      · exact hx
      · exact ih { s with requestCount := s.requestCount + 1 }
          hlast (by show s.requestCount + 1 + rest.length ≤ 60; omega)
          (fun u hu => hwin u (List.mem_cons_of_mem t hu)) x hx

/-- C2: a sequence of at most 60 sequential admits that all fall within
one 60-second window — each call's clock reading `t` satisfies
`t − windowStart < 60000`, starting from a freshly reset window — is
admitted with no call delayed: every `checkRateLimit` in the run returns
without suspending. -/
theorem rate_gate_sixty_calls_never_delayed (w : Int) (ts : List Int)
    (hlen : ts.length ≤ 60)
    (hwin : ∀ t ∈ ts, t - w < 60000) :
    ∀ x ∈ (runCalls ts ⟨w, 0⟩).1, x = none :=
  runCalls_in_window_no_wait w ts ⟨w, 0⟩ rfl (by simpa using hlen) hwin

/-- Witness for C2: three calls at times 1, 2, 3 inside the window that
started at time 0, none delayed. -/
theorem rate_gate_sixty_calls_never_delayed_witness :
    ([1, 2, 3] : List Int).length ≤ 60 ∧
    (∀ t ∈ ([1, 2, 3] : List Int), t - 0 < 60000) ∧
    ∀ x ∈ (runCalls [1, 2, 3] ⟨0, 0⟩).1, x = none :=
  ⟨by decide, by decide,
    rate_gate_sixty_calls_never_delayed 0 [1, 2, 3] (by decide) (by decide)⟩

/-- C3: single-step invariant of the rate gate, assuming a monotone
clock (the first reading is no earlier than the stored `lastRequestTime`
and the post-wait reading is no earlier than the first): whenever an
admit returns without suspending, the resulting `requestCount` is at
most 60, and every execution leaves `lastRequestTime` greater than or
equal to its previous value — the window start only advances forward. -/
theorem rate_gate_invariant (now nowAfterWait : Int) (s : RateState)
    (hmono1 : s.lastRequestTime ≤ now) (hmono2 : now ≤ nowAfterWait) :
    ((checkRateLimit now nowAfterWait s).1 = none →
      (checkRateLimit now nowAfterWait s).2.requestCount ≤ 60) ∧
    s.lastRequestTime ≤ (checkRateLimit now nowAfterWait s).2.lastRequestTime := by
  by_cases hA : now - s.lastRequestTime ≥ 60000
  · simp [checkRateLimit, if_pos hA]
    omega
  · by_cases hB : s.requestCount ≥ 60
    · simp [checkRateLimit, if_neg hA, if_pos hB]
      omega
    · simp [checkRateLimit, if_neg hA, if_neg hB]
      omega

/-- Witness for C3 at a concrete input: a mid-window call at time 5 on a
window started at time 0 with 7 requests counted. -/
theorem rate_gate_invariant_witness :
    RateState.lastRequestTime ⟨0, 7⟩ ≤ (5 : Int) ∧ (5 : Int) ≤ 5 ∧
    (((checkRateLimit 5 5 ⟨0, 7⟩).1 = none →
        (checkRateLimit 5 5 ⟨0, 7⟩).2.requestCount ≤ 60) ∧
      RateState.lastRequestTime ⟨0, 7⟩ ≤
        (checkRateLimit 5 5 ⟨0, 7⟩).2.lastRequestTime) :=
  ⟨by decide, by decide, rate_gate_invariant 5 5 ⟨0, 7⟩ (by decide) (by decide)⟩

/-- C4: any of the seven catalogued tools, invoked through the
`CallToolRequestSchema` handler when neither credentials source — the
query-parameter config nor the environment variables — supplies both
`huntressApiKey` and `huntressApiSecret`, fails with the AuthRequired
`McpError` ('huntressApiKey and huntressApiSecret are required'); the
outcome is an error, not a `request`, so no `makeRequest` / HTTP GET is
ever issued. -/
theorem tool_call_without_credentials_fails_auth
    (queryParams : List (String × String)) (env : Env)
    (name : String) (args : Args)
    (hname : name ∈ sevenToolNames)
    (hcred : hasCredentials (parseConfig queryParams env) = false) :
    (handleCallTool { config := parseConfig queryParams env } name args).1 =
      .err authRequiredErr := by
  simp [handleCallTool, initServer, hcred]

/-- Witness for C4: no query parameters, no environment variables, a
`get_account_info` call fails with the AuthRequired error. -/
theorem tool_call_without_credentials_fails_auth_witness :
    "get_account_info" ∈ sevenToolNames ∧
    hasCredentials (parseConfig [] {}) = false ∧
    (handleCallTool { config := parseConfig [] {} } "get_account_info" {}).1 =
      .err authRequiredErr :=
  ⟨by decide, by decide,
    tool_call_without_credentials_fails_auth [] {} "get_account_info" {}
      (by decide) (by decide)⟩

/-- C5: the `ListToolsRequestSchema` handler returns the same static
catalogue for every server state — in particular for any credential
configuration, including none at all — and that catalogue consists of
exactly the seven declared tools, in order: get_account_info,
list_organizations, get_organization, list_agents, get_agent,
list_incidents, get_incident. -/
theorem tools_list_static_and_complete (s s' : ServerState) :
    listToolsHandler s = listToolsHandler s' ∧
    (listToolsHandler s).map ToolDescriptor.name = sevenToolNames ∧
    (listToolsHandler s).length = 7 :=
  ⟨rfl, rfl, rfl⟩

/-- C6: a `list_organizations` call with no arguments sends query
parameters `page=1` and `limit=50`; a call with `limit=1000` sends
`limit=500`; and in general any schema-valid requested limit `n ≥ 1` is
sent as `min n 500`. The same defaulting and clamping applies to
`list_agents` and `list_incidents`. -/
theorem list_tools_paging_defaults_and_clamping (n : Int) (hn : 1 ≤ n) :
    dispatchTool "list_organizations" {} =
      .ok { endpoint := "/organizations",
            params := [("page", .int 1), ("limit", .int 50)] } ∧
    dispatchTool "list_organizations" { limit := some 1000 } =
      .ok { endpoint := "/organizations",
            params := [("page", .int 1), ("limit", .int 500)] } ∧
    dispatchTool "list_agents" {} =
      .ok { endpoint := "/agents",
            params := [("page", .int 1), ("limit", .int 50)] } ∧
    dispatchTool "list_agents" { limit := some 1000 } =
      .ok { endpoint := "/agents",
            params := [("page", .int 1), ("limit", .int 500)] } ∧
    dispatchTool "list_incidents" {} =
      .ok { endpoint := "/incidents",
            params := [("page", .int 1), ("limit", .int 50)] } ∧
    dispatchTool "list_incidents" { limit := some 1000 } =
      .ok { endpoint := "/incidents",
            params := [("page", .int 1), ("limit", .int 500)] } ∧
    dispatchTool "list_organizations" { limit := some n } =
      .ok { endpoint := "/organizations",
            params := [("page", .int 1), ("limit", .int (min n 500))] } ∧
    dispatchTool "list_agents" { limit := some n } =
      .ok { endpoint := "/agents",
            params := [("page", .int 1), ("limit", .int (min n 500))] } ∧
    dispatchTool "list_incidents" { limit := some n } =
      .ok { endpoint := "/incidents",
            params := [("page", .int 1), ("limit", .int (min n 500))] } := by
  have hne : n ≠ 0 := by omega
  refine ⟨rfl, rfl, rfl, rfl, rfl, rfl, ?_, ?_, ?_⟩ <;>
    simp [dispatchTool, pagingParams, jsIntOr, hne]

/-- Witness for C6 at the concrete requested limit 3. -/
theorem list_tools_paging_defaults_and_clamping_witness :
    (1 : Int) ≤ 3 ∧
    (dispatchTool "list_organizations" {} =
      .ok { endpoint := "/organizations",
            params := [("page", .int 1), ("limit", .int 50)] } ∧
    dispatchTool "list_organizations" { limit := some 1000 } =
      .ok { endpoint := "/organizations",
            params := [("page", .int 1), ("limit", .int 500)] } ∧
    dispatchTool "list_agents" {} =
      .ok { endpoint := "/agents",
            params := [("page", .int 1), ("limit", .int 50)] } ∧
    dispatchTool "list_agents" { limit := some 1000 } =
      .ok { endpoint := "/agents",
            params := [("page", .int 1), ("limit", .int 500)] } ∧
    dispatchTool "list_incidents" {} =
      .ok { endpoint := "/incidents",
            params := [("page", .int 1), ("limit", .int 50)] } ∧
    dispatchTool "list_incidents" { limit := some 1000 } =
      .ok { endpoint := "/incidents",
            params := [("page", .int 1), ("limit", .int 500)] } ∧
    dispatchTool "list_organizations" { limit := some 3 } =
      .ok { endpoint := "/organizations",
            params := [("page", .int 1), ("limit", .int (min 3 500))] } ∧
    dispatchTool "list_agents" { limit := some 3 } =
      .ok { endpoint := "/agents",
            params := [("page", .int 1), ("limit", .int (min 3 500))] } ∧
    dispatchTool "list_incidents" { limit := some 3 } =
      .ok { endpoint := "/incidents",
            params := [("page", .int 1), ("limit", .int (min 3 500))] }) :=
  ⟨by decide, list_tools_paging_defaults_and_clamping 3 (by decide)⟩

/-- C7: a `get_agent` call whose arguments carry no `agent_id` fails
with the InvalidParams `McpError` 'agent_id is required' before any
network call — the dispatch result is an error, never a request handed
to `makeRequest`; likewise `get_organization` without
`organization_id` and `get_incident` without `incident_id`. -/
theorem get_tools_missing_id_fail_before_network (args : Args)
    (h1 : args.agent_id = none) (h2 : args.organization_id = none)
    (h3 : args.incident_id = none) :
    dispatchTool "get_agent" args =
      .error { code := .InvalidParams, message := "agent_id is required" } ∧
    dispatchTool "get_organization" args =
      .error { code := .InvalidParams,
               message := "organization_id is required" } ∧
    dispatchTool "get_incident" args =
      .error { code := .InvalidParams,
               message := "incident_id is required" } := by
  refine ⟨?_, ?_, ?_⟩ <;>
    simp [dispatchTool, jsIntTruthy, h1, h2, h3]

/-- Witness for C7: the empty argument object. -/
theorem get_tools_missing_id_fail_before_network_witness :
    Args.agent_id {} = none ∧ Args.organization_id {} = none ∧
    Args.incident_id {} = none ∧
    (dispatchTool "get_agent" {} =
      .error { code := .InvalidParams, message := "agent_id is required" } ∧
    dispatchTool "get_organization" {} =
      .error { code := .InvalidParams,
               message := "organization_id is required" } ∧
    dispatchTool "get_incident" {} =
      .error { code := .InvalidParams,
               message := "incident_id is required" }) :=
  ⟨rfl, rfl, rfl,
    get_tools_missing_id_fail_before_network {} rfl rfl rfl⟩

/-- C9 (implicit): an identifier argument equal to 0 is treated exactly
like an absent identifier by `get_agent`, `get_organization` and
`get_incident` — the `if (!id)` guard tests JS falsiness, so the call
fails with the same InvalidParams error before any network call, even
though the declared input schema accepts any integer. -/
theorem get_tools_zero_id_treated_as_missing :
    dispatchTool "get_agent" { agent_id := some 0 } =
      .error { code := .InvalidParams, message := "agent_id is required" } ∧
    dispatchTool "get_organization" { organization_id := some 0 } =
      .error { code := .InvalidParams,
               message := "organization_id is required" } ∧
    dispatchTool "get_incident" { incident_id := some 0 } =
      .error { code := .InvalidParams,
               message := "incident_id is required" } ∧
    dispatchTool "get_agent" { agent_id := some 0 } =
      dispatchTool "get_agent" ({} : Args) ∧
    dispatchTool "get_organization" { organization_id := some 0 } =
      dispatchTool "get_organization" ({} : Args) ∧
    dispatchTool "get_incident" { incident_id := some 0 } =
      dispatchTool "get_incident" ({} : Args) :=
  ⟨rfl, rfl, rfl, rfl, rfl, rfl⟩

/-- C10 (implicit): in the `CallToolRequestSchema` handler,
`await this.initialize()` runs before the tool name is examined, so a
call with a name outside the seven-tool catalogue made without
configured credentials fails with the credentials-required error, not
with 'Unknown tool'; and over any sequence of stdio-mode calls on a
server whose (never-reassigned) config lacks credentials, every outcome
is the AuthRequired error, so the MethodNotFound 'Unknown tool' error is
never produced without configured credentials. -/
theorem unknown_tool_error_needs_credentials (cfg : Config) (name : String)
    (args : Args) (calls : List (String × Args))
    (hname : name ∉ sevenToolNames)
    (hcred : hasCredentials cfg = false) :
    (handleCallTool { config := cfg } name args).1 = .err authRequiredErr ∧
    ∀ r ∈ (runToolCalls calls { config := cfg }).1,
      r = .err authRequiredErr := by
  have hstep : ∀ (nm : String) (ar : Args),
      handleCallTool { config := cfg } nm ar =
        (.err authRequiredErr, { config := cfg }) := by
    intro nm ar
    simp [handleCallTool, initServer, hcred]
  refine ⟨by rw [hstep name args], ?_⟩
  induction calls with
  | nil =>
      intro r hr
      simp [runToolCalls] at hr
  | cons c rest ih =>
      intro r hr
      simp only [runToolCalls, hstep] at hr
      rcases List.mem_cons.mp hr with h | h
      · exact h
      · exact ih r h

/-- Witness for C10: empty config, the unknown tool name 'frobnicate'
and a one-call sequence invoking `get_account_info`. -/
theorem unknown_tool_error_needs_credentials_witness :
    "frobnicate" ∉ sevenToolNames ∧
    hasCredentials ({} : Config) = false ∧
    ((handleCallTool { config := {} } "frobnicate" {}).1 =
        .err authRequiredErr ∧
      ∀ r ∈ (runToolCalls [("get_account_info", {})] { config := {} }).1,
        r = .err authRequiredErr) :=
  ⟨by decide, by decide,
    unknown_tool_error_needs_credentials {} "frobnicate" {}
      [("get_account_info", {})] (by decide) (by decide)⟩

/-- C8 counterexample: in HTTP mode, a first `tools/call` request
carrying credentials kA/sA initializes the axios instance; a second
request carrying different credentials kB/sB still issues its outbound
request with the Basic-Auth header derived from kA/sA — the header
derived from kB/sB, which the claim says would be used, is a different
string. -/
theorem http_second_request_ignores_new_credentials :
    (handleHttpToolCall
        [("huntressApiKey", "kB"), ("huntressApiSecret", "sB")] {}
        "get_account_info" {}
        (handleHttpToolCall
          [("huntressApiKey", "kA"), ("huntressApiSecret", "sA")] {}
          "get_account_info" {} {}).2).1 =
      HttpOutcome.request { endpoint := "/account" }
        (some (authHeaderFor
          { huntressApiKey := some "kA", huntressApiSecret := some "sA" })) ∧
    authHeaderFor
        { huntressApiKey := some "kA", huntressApiSecret := some "sA" } ≠
      authHeaderFor
        { huntressApiKey := some "kB", huntressApiSecret := some "sB" } :=
  ⟨rfl, by decide⟩

/-- C8 as amended: in HTTP mode the config is re-parsed from the query
parameters of every request, but the Basic-Auth header lives in the
axios instance created only on the first successful initialization:
once `isInitialized` is true, a tool call leaves the cached header
unchanged and any request it issues carries that cached header — not a
header derived from the credentials arriving with the current
request. -/
theorem http_auth_header_cached_after_first_init
    (queryParams : List (String × String)) (env : Env) (name : String)
    (args : Args) (s : ServerState) (hinit : s.isInitialized = true) :
    (handleHttpToolCall queryParams env name args s).2.config =
      parseConfig queryParams env ∧
    (handleHttpToolCall queryParams env name args s).2.authHeader =
      s.authHeader ∧
    ∀ r a, (handleHttpToolCall queryParams env name args s).1 =
        HttpOutcome.request r a → a = s.authHeader := by
  have hi : initServer { s with config := parseConfig queryParams env } =
      .ok { s with config := parseConfig queryParams env } := by
    simp [initServer, hinit]
  simp only [handleHttpToolCall, hi]
  cases hd : dispatchToolHttp name args with
  | error msg => simp
  | ok r => simp

/-- Witness for C8's amended theorem: an already-initialized state whose
cached header came from kA/sA receives a request carrying kB/sB. -/
theorem http_auth_header_cached_after_first_init_witness :
    ServerState.isInitialized
        { config := { huntressApiKey := some "kA",
                      huntressApiSecret := some "sA" },
          isInitialized := true,
          authHeader := some (authHeaderFor
            { huntressApiKey := some "kA",
              huntressApiSecret := some "sA" }) } = true ∧
    ((handleHttpToolCall
        [("huntressApiKey", "kB"), ("huntressApiSecret", "sB")] {}
        "get_account_info" {}
        { config := { huntressApiKey := some "kA",
                      huntressApiSecret := some "sA" },
          isInitialized := true,
          authHeader := some (authHeaderFor
            { huntressApiKey := some "kA",
              huntressApiSecret := some "sA" }) }).2.config =
      parseConfig [("huntressApiKey", "kB"), ("huntressApiSecret", "sB")] {} ∧
    (handleHttpToolCall
        [("huntressApiKey", "kB"), ("huntressApiSecret", "sB")] {}
        "get_account_info" {}
        { config := { huntressApiKey := some "kA",
                      huntressApiSecret := some "sA" },
          isInitialized := true,
          authHeader := some (authHeaderFor
            { huntressApiKey := some "kA",
              huntressApiSecret := some "sA" }) }).2.authHeader =
      ServerState.authHeader
        { config := { huntressApiKey := some "kA",
                      huntressApiSecret := some "sA" },
          isInitialized := true,
          authHeader := some (authHeaderFor
            { huntressApiKey := some "kA",
              huntressApiSecret := some "sA" }) } ∧
    ∀ r a, (handleHttpToolCall
        [("huntressApiKey", "kB"), ("huntressApiSecret", "sB")] {}
        "get_account_info" {}
        { config := { huntressApiKey := some "kA",
                      huntressApiSecret := some "sA" },
          isInitialized := true,
          authHeader := some (authHeaderFor
            { huntressApiKey := some "kA",
              huntressApiSecret := some "sA" }) }).1 =
        HttpOutcome.request r a →
      a = ServerState.authHeader
        { config := { huntressApiKey := some "kA",
                      huntressApiSecret := some "sA" },
          isInitialized := true,
          authHeader := some (authHeaderFor
            { huntressApiKey := some "kA",
              huntressApiSecret := some "sA" }) }) :=
  ⟨rfl,
    http_auth_header_cached_after_first_init
      [("huntressApiKey", "kB"), ("huntressApiSecret", "sB")] {}
      "get_account_info" {}
      { config := { huntressApiKey := some "kA",
                    huntressApiSecret := some "sA" },
        isInitialized := true,
        authHeader := some (authHeaderFor
          { huntressApiKey := some "kA",
            huntressApiSecret := some "sA" }) } rfl⟩
